import Mathlib

/-!
Shallow embedding of the `svg_fmt` SVG fragment builder (src/svg_fmt/src/svg.rs).

Machine floats (`f32`) are modelled as `ℚ`: every coordinate used by the
claims is exactly representable, and the code performs only comparisons and
assignments on them (no rounding arithmetic).  Rust's `Display` for `f32`
prints integral values without a decimal point ("20" for `20.0`), which
`fmtF32` reproduces for integral rationals.
-/

set_option maxRecDepth 4000

namespace SvgFmt

/-- Rendering of an `f32` value, as Rust's `Display` prints it: integral
values print as plain integers (the only case the concrete claims exercise). -/
def fmtF32 (q : ℚ) : String :=
  if q.den = 1 then toString q.num else toString q

/-- `Color { r, g, b }` with `u8` components, from svg.rs lines 47-52. -/
structure Color where
  r : ℕ
  g : ℕ
  b : ℕ
deriving DecidableEq

/-- `impl fmt::Display for Color`: `rgb({r},{g},{b})` (svg.rs lines 54-58). -/
def Color.display (c : Color) : String :=
  "rgb(" ++ toString c.r ++ "," ++ toString c.g ++ "," ++ toString c.b ++ ")"

def rgb (r g b : ℕ) : Color := ⟨r, g, b⟩
def black : Color := rgb 0 0 0
def white : Color := rgb 255 255 255
def red : Color := rgb 255 0 0
def green : Color := rgb 0 255 0
def blue : Color := rgb 0 0 255

/-- `enum Fill` (svg.rs lines 68-72). -/
inductive Fill where
  | color (c : Color)
  | none
deriving DecidableEq

/-- `enum Stroke` (svg.rs lines 75-79): `Color(Color, f32)` or `None`. -/
inductive Stroke where
  | color (c : Color) (radius : ℚ)
  | none
deriving DecidableEq

/-- `impl fmt::Display for Fill` (svg.rs lines 112-119). -/
def Fill.display : Fill → String
  | Fill.color c => "fill:" ++ c.display
  | Fill.none => "fill:none"

/-- `impl fmt::Display for Stroke` (svg.rs lines 121-128):
`stroke:{color};stroke-width:{radius}` or `stroke:none`. -/
def Stroke.display : Stroke → String
  | Stroke.color c radius => "stroke:" ++ c.display ++ ";stroke-width:" ++ fmtF32 radius
  | Stroke.none => "stroke:none"

/-- `struct Style` (svg.rs lines 82-88). -/
structure Style where
  fill : Fill
  stroke : Stroke
  opacity : ℚ
  stroke_opacity : ℚ
deriving DecidableEq

/-- `impl fmt::Display for Style` (svg.rs lines 90-99):
`{fill};{stroke};fill-opacity:{opacity};stroke-opacity:{stroke_opacity};`. -/
def Style.display (s : Style) : String :=
  s.fill.display ++ ";" ++ s.stroke.display ++ ";fill-opacity:" ++ fmtF32 s.opacity
    ++ ";stroke-opacity:" ++ fmtF32 s.stroke_opacity ++ ";"

/-- `Style::default()` (svg.rs lines 101-110). -/
def Style.default : Style :=
  { fill := Fill.color black, stroke := Stroke.none, opacity := 1, stroke_opacity := 1 }

/-- `struct Rectangle` (svg.rs lines 143-151). -/
structure Rectangle where
  x : ℚ
  y : ℚ
  w : ℚ
  h : ℚ
  style : Style
  border_radius : ℚ
deriving DecidableEq

/-- `rectangle(x, y, w, h)` constructor (svg.rs lines 153-159). -/
def rectangle (x y w h : ℚ) : Rectangle :=
  { x := x, y := y, w := w, h := h, style := Style.default, border_radius := 0 }

/-- `Rectangle::fill` (svg.rs lines 162-166). -/
def Rectangle.fill (r : Rectangle) (f : Fill) : Rectangle :=
  { r with style := { r.style with fill := f } }

/-- `Rectangle::stroke` (svg.rs lines 168-172). -/
def Rectangle.stroke (r : Rectangle) (s : Stroke) : Rectangle :=
  { r with style := { r.style with stroke := s } }

/-- `Rectangle::border_radius` (svg.rs lines 189-192). -/
def Rectangle.border_radius_set (r : Rectangle) (br : ℚ) : Rectangle :=
  { r with border_radius := br }

/-- `impl fmt::Display for Rectangle` (svg.rs lines 222-231).  The raw string
template is `r#"<rect x="{}" y="{}" width="{}" height="{}" ry="{}" style="{}" />""#`,
whose content ends in `/>"` - the emitted fragment carries a trailing
double-quote character. -/
def Rectangle.display (r : Rectangle) : String :=
  "<rect x=\"" ++ fmtF32 r.x ++ "\" y=\"" ++ fmtF32 r.y ++ "\" width=\"" ++ fmtF32 r.w
    ++ "\" height=\"" ++ fmtF32 r.h ++ "\" ry=\"" ++ fmtF32 r.border_radius
    ++ "\" style=\"" ++ r.style.display ++ "\" />\""

/-- The rectangle of claim C1: `rectangle(20,50,200,100)` then
`.fill(red()).stroke(Stroke::Color(black(),3.0)).border_radius(5.0)`. -/
def rectC1 : Rectangle :=
  (((rectangle 20 50 200 100).fill (Fill.color red)).stroke
      (Stroke.color black 3)).border_radius_set 5

/-- C1: the claim asserts the rendering is exactly
`<rect x="20" y="50" width="200" height="100" ry="5" style="fill:rgb(255,0,0);stroke:rgb(0,0,0),3;fill-opacity:1;stroke-opacity:1;" />`
with nothing before or after.  It is not: the stroke fragment renders as
`stroke:rgb(0,0,0);stroke-width:3` (not `stroke:rgb(0,0,0),3`), and the
template appends a stray trailing `"` after `/>`. -/
theorem rect_c1_render_not_claimed :
    rectC1.display ≠
      "<rect x=\"20\" y=\"50\" width=\"200\" height=\"100\" ry=\"5\" style=\"fill:rgb(255,0,0);stroke:rgb(0,0,0),3;fill-opacity:1;stroke-opacity:1;\" />" := by
  decide

/-- C1 (amended): the rendering of that configured rectangle is exactly
`<rect x="20" y="50" width="200" height="100" ry="5" style="fill:rgb(255,0,0);stroke:rgb(0,0,0);stroke-width:3;fill-opacity:1;stroke-opacity:1;" />"`,
with the stroke rendered as `stroke:{color};stroke-width:{w}` and a stray
trailing double quote after `/>`. -/
theorem rect_c1_render_exact :
    rectC1.display =
      "<rect x=\"20\" y=\"50\" width=\"200\" height=\"100\" ry=\"5\" style=\"fill:rgb(255,0,0);stroke:rgb(0,0,0);stroke-width:3;fill-opacity:1;stroke-opacity:1;\" />\"" := by
  decide

/-- `struct LineSegment` (svg.rs lines 367-376): field order `x1, x2, y1, y2`,
then `color`, `width`, `opacity`. -/
structure LineSegment where
  x1 : ℚ
  x2 : ℚ
  y1 : ℚ
  y2 : ℚ
  color : Color
  width : ℚ
  opacity : ℚ
deriving DecidableEq

/-- `line_segment(x1, y1, x2, y2)` constructor (svg.rs lines 391-398):
default color black, width 1.0, opacity 1.0. -/
def line_segment (x1 y1 x2 y2 : ℚ) : LineSegment :=
  { x1 := x1, y1 := y1, x2 := x2, y2 := y2, color := black, width := 1, opacity := 1 }

/-- The X block of `LineSegment::flip_to` (svg.rs lines 429-437). -/
def flipX (s : LineSegment) (new_x : ℚ) : LineSegment :=
  if new_x = 0 then s
  else if new_x > s.x1 then { s with x1 := s.x2, x2 := new_x }
  else if new_x < s.x1 then { s with x2 := s.x1, x1 := new_x }
  else s

/-- The Y block of `LineSegment::flip_to` (svg.rs lines 438-446). -/
def flipY (s : LineSegment) (new_y : ℚ) : LineSegment :=
  if new_y = 0 then s
  else if new_y > s.y1 then { s with y1 := s.y2, y2 := new_y }
  else if new_y < s.y1 then { s with y2 := s.y1, y1 := new_y }
  else s

/-- `LineSegment::flip_to(new_x, new_y)` (svg.rs lines 426-448): the X block
runs first, then the Y block runs on its result, exactly as the two sequential
`if` blocks in the source. -/
def LineSegment.flip_to (s : LineSegment) (new_x new_y : ℚ) : LineSegment :=
  flipY (flipX s new_x) new_y

theorem flipX_y1 (s : LineSegment) (c : ℚ) : (flipX s c).y1 = s.y1 := by
  unfold flipX
  split_ifs <;> rfl

theorem flipX_y2 (s : LineSegment) (c : ℚ) : (flipX s c).y2 = s.y2 := by
  unfold flipX
  split_ifs <;> rfl

theorem flipY_x1 (s : LineSegment) (c : ℚ) : (flipY s c).x1 = s.x1 := by
  unfold flipY
  split_ifs <;> rfl

theorem flipY_x2 (s : LineSegment) (c : ℚ) : (flipY s c).x2 = s.x2 := by
  unfold flipY
  split_ifs <;> rfl

theorem flipX_x1_eq (s : LineSegment) (c : ℚ) :
    (flipX s c).x1 =
      if c ≠ 0 ∧ c > s.x1 then s.x2 else if c ≠ 0 ∧ c < s.x1 then c else s.x1 := by
  unfold flipX
  split_ifs <;> simp_all

theorem flipX_x2_eq (s : LineSegment) (c : ℚ) :
    (flipX s c).x2 =
      if c ≠ 0 ∧ c > s.x1 then c else if c ≠ 0 ∧ c < s.x1 then s.x1 else s.x2 := by
  unfold flipX
  split_ifs <;> simp_all

theorem flipY_y1_eq (s : LineSegment) (c : ℚ) :
    (flipY s c).y1 =
      if c ≠ 0 ∧ c > s.y1 then s.y2 else if c ≠ 0 ∧ c < s.y1 then c else s.y1 := by
  unfold flipY
  split_ifs <;> simp_all

theorem flipY_y2_eq (s : LineSegment) (c : ℚ) :
    (flipY s c).y2 =
      if c ≠ 0 ∧ c > s.y1 then c else if c ≠ 0 ∧ c < s.y1 then s.y1 else s.y2 := by
  unfold flipY
  split_ifs <;> simp_all

theorem flip_to_x1 (s : LineSegment) (nx ny : ℚ) :
    (s.flip_to nx ny).x1 =
      if nx ≠ 0 ∧ nx > s.x1 then s.x2 else if nx ≠ 0 ∧ nx < s.x1 then nx else s.x1 := by
  unfold LineSegment.flip_to
  rw [flipY_x1, flipX_x1_eq]

theorem flip_to_x2 (s : LineSegment) (nx ny : ℚ) :
    (s.flip_to nx ny).x2 =
      if nx ≠ 0 ∧ nx > s.x1 then nx else if nx ≠ 0 ∧ nx < s.x1 then s.x1 else s.x2 := by
  unfold LineSegment.flip_to
  rw [flipY_x2, flipX_x2_eq]

theorem flip_to_y1 (s : LineSegment) (nx ny : ℚ) :
    (s.flip_to nx ny).y1 =
      if ny ≠ 0 ∧ ny > s.y1 then s.y2 else if ny ≠ 0 ∧ ny < s.y1 then ny else s.y1 := by
  unfold LineSegment.flip_to
  rw [flipY_y1_eq, flipX_y1, flipX_y2]

theorem flip_to_y2 (s : LineSegment) (nx ny : ℚ) :
    (s.flip_to nx ny).y2 =
      if ny ≠ 0 ∧ ny > s.y1 then ny else if ny ≠ 0 ∧ ny < s.y1 then s.y1 else s.y2 := by
  unfold LineSegment.flip_to
  rw [flipY_y2_eq, flipX_y1, flipX_y2]

/-- The per-axis rule exactly as claim C2 words it, for one axis with first
endpoint `f`, second endpoint `s`, candidate `c`, and results `f'`, `s'`.  In
the greater-than branch the claim performs both actions on the *second*
endpoint ("the second endpoint coordinate is overwritten with the first
endpoint's old value and the candidate becomes the new second endpoint
coordinate"), so the second endpoint finally holds the candidate while the
first endpoint, which the claim never touches in that branch, keeps its old
value. -/
def flipAxisClaimC2 (f s c f' s' : ℚ) : Prop :=
  (c ≠ 0 → (c > f → f' = f ∧ s' = c) ∧ (c < f → f' = c ∧ s' = f)) ∧
  (c = 0 → f' = f ∧ s' = s)

instance (f s c f' s' : ℚ) : Decidable (flipAxisClaimC2 f s c f' s') := by
  unfold flipAxisClaimC2
  infer_instance

/-- Claim C2's full statement for one segment and one candidate pair:
both axes follow `flipAxisClaimC2`. -/
def flipClaimC2 (seg : LineSegment) (nx ny : ℚ) : Prop :=
  flipAxisClaimC2 seg.x1 seg.x2 nx (seg.flip_to nx ny).x1 (seg.flip_to nx ny).x2 ∧
  flipAxisClaimC2 seg.y1 seg.y2 ny (seg.flip_to nx ny).y1 (seg.flip_to nx ny).y2

instance (seg : LineSegment) (nx ny : ℚ) : Decidable (flipClaimC2 seg nx ny) := by
  unfold flipClaimC2
  infer_instance

/-- C2 (counterexample): on the segment with `x1=0, x2=10` (both ys zero) and
candidates `new_x=15, new_y=0`, the code sets `x1` to the second endpoint's
old value `10`, while the claim's greater-than rule leaves the first endpoint
at its old value `0`; so the claim as stated is false at this input. -/
theorem flip_to_c2_claim_false :
    ¬ flipClaimC2 (line_segment 0 0 10 0) 15 0 := by
  decide

/-- C2 (amended): flip_to processes the X and Y axes independently by the
identical rule: a candidate of exactly zero leaves that axis unchanged; a
nonzero candidate greater than the first endpoint coordinate overwrites the
*first* endpoint with the *second* endpoint's old value and the candidate
becomes the new second endpoint coordinate; a nonzero candidate less than the
first endpoint coordinate becomes the new first endpoint coordinate and the
old first endpoint coordinate is pushed to the second endpoint. -/
theorem flip_to_c2_amended (seg : LineSegment) (nx ny : ℚ) :
    ((seg.flip_to nx ny).x1 =
        if nx ≠ 0 ∧ nx > seg.x1 then seg.x2
        else if nx ≠ 0 ∧ nx < seg.x1 then nx
        else seg.x1) ∧
    ((seg.flip_to nx ny).x2 =
        if nx ≠ 0 ∧ nx > seg.x1 then nx
        else if nx ≠ 0 ∧ nx < seg.x1 then seg.x1
        else seg.x2) ∧
    ((seg.flip_to nx ny).y1 =
        if ny ≠ 0 ∧ ny > seg.y1 then seg.y2
        else if ny ≠ 0 ∧ ny < seg.y1 then ny
        else seg.y1) ∧
    ((seg.flip_to nx ny).y2 =
        if ny ≠ 0 ∧ ny > seg.y1 then ny
        else if ny ≠ 0 ∧ ny < seg.y1 then seg.y1
        else seg.y2) :=
  ⟨flip_to_x1 seg nx ny, flip_to_x2 seg nx ny, flip_to_y1 seg nx ny, flip_to_y2 seg nx ny⟩

/-- C3: for every segment with `x1=0` and `x2=10` and arbitrary remaining
fields and `new_y`: `flip_to(15,_)` yields `x1=10, x2=15`; `flip_to(-5,_)`
yields `x1=-5, x2=0`; `flip_to(0,_)` leaves `x1`/`x2` unchanged. -/
theorem flip_to_c3_examples (seg : LineSegment) (ny : ℚ)
    (h1 : seg.x1 = 0) (h2 : seg.x2 = 10) :
    ((seg.flip_to 15 ny).x1 = 10 ∧ (seg.flip_to 15 ny).x2 = 15) ∧
    ((seg.flip_to (-5) ny).x1 = -5 ∧ (seg.flip_to (-5) ny).x2 = 0) ∧
    ((seg.flip_to 0 ny).x1 = 0 ∧ (seg.flip_to 0 ny).x2 = 10) := by
  rw [flip_to_x1, flip_to_x2, flip_to_x1, flip_to_x2, flip_to_x1, flip_to_x2, h1, h2]
  norm_num

/-- C3 witness at the concrete segment `line_segment(0, 0, 10, 0)` with
`new_y = 7`. -/
theorem flip_to_c3_examples_witness :
    (((line_segment 0 0 10 0).flip_to 15 7).x1 = 10 ∧
      ((line_segment 0 0 10 0).flip_to 15 7).x2 = 15) ∧
    (((line_segment 0 0 10 0).flip_to (-5) 7).x1 = -5 ∧
      ((line_segment 0 0 10 0).flip_to (-5) 7).x2 = 0) ∧
    (((line_segment 0 0 10 0).flip_to 0 7).x1 = 0 ∧
      ((line_segment 0 0 10 0).flip_to 0 7).x2 = 10) :=
  flip_to_c3_examples (line_segment 0 0 10 0) 7 rfl rfl

/-- `Rectangle::sides()` (svg.rs lines 211-219): top, bottom, left, right. -/
def Rectangle.sides (r : Rectangle) : List LineSegment :=
  [line_segment r.x r.y (r.x + r.w) r.y,
   line_segment r.x (r.y + r.h) (r.x + r.w) (r.y + r.h),
   line_segment r.x r.y r.x (r.y + r.h),
   line_segment (r.x + r.w) r.y (r.x + r.w) (r.y + r.h)]

/-- C7: for every Rectangle, `sides()` returns exactly four LineSegments in the
fixed order top, bottom, left, right with endpoints (x,y)-(x+w,y),
(x,y+h)-(x+w,y+h), (x,y)-(x,y+h), (x+w,y)-(x+w,y+h), each with default
LineSegment styling (black, width 1, opacity 1) regardless of the rectangle's
own style (the style never enters the construction). -/
theorem rectangle_sides_c7 (r : Rectangle) :
    r.sides =
      [{ x1 := r.x, y1 := r.y, x2 := r.x + r.w, y2 := r.y,
         color := black, width := 1, opacity := 1 },
       { x1 := r.x, y1 := r.y + r.h, x2 := r.x + r.w, y2 := r.y + r.h,
         color := black, width := 1, opacity := 1 },
       { x1 := r.x, y1 := r.y, x2 := r.x, y2 := r.y + r.h,
         color := black, width := 1, opacity := 1 },
       { x1 := r.x + r.w, y1 := r.y, x2 := r.x + r.w, y2 := r.y + r.h,
         color := black, width := 1, opacity := 1 }] := rfl

/-- C8: for every Rectangle and every fill and stroke argument, the two
mutators commute and the renderings agree:
`rect.fill(f).stroke(s)` renders identically to `rect.stroke(s).fill(f)`. -/
theorem rect_fill_stroke_commute_c8 (r : Rectangle) (f : Fill) (s : Stroke) :
    ((r.fill f).stroke s).display = ((r.stroke s).fill f).display := rfl

/-- `struct Polygon` (svg.rs lines 293-298). -/
structure Polygon where
  points : List (ℚ × ℚ)
  closed : Bool
  style : Style

/-- The `for &p in &self.points[1..]` loop of Polygon's Display
(svg.rs lines 305-307). -/
def polyOps : List (ℚ × ℚ) → String
  | [] => ""
  | q :: rest => "L " ++ fmtF32 q.1 ++ " " ++ fmtF32 q.2 ++ " " ++ polyOps rest

/-- `impl fmt::Display for Polygon` (svg.rs lines 300-314).  The first write is
the raw string `r#"<path d="#`, whose content is `<path d=` with NO opening
double quote for the `d` attribute; the closing fragment `r#"" style="{}"/>"#`
contributes the lone `"` that follows the path data. -/
def Polygon.display (p : Polygon) : String :=
  "<path d=" ++
    (match p.points with
     | [] => ""
     | q :: rest =>
        "M " ++ fmtF32 q.1 ++ " " ++ fmtF32 q.2 ++ " " ++ polyOps rest ++
          (if p.closed then "Z" else "")) ++
    "\" style=\"" ++ p.style.display ++ "\"/>"

/-- `polygon(pts)` constructor (svg.rs lines 316-326): closed, default style. -/
def polygon (pts : List (ℚ × ℚ)) : Polygon :=
  { points := pts, closed := true, style := Style.default }

/-- `Polygon::open()` (svg.rs lines 333-336); named `open_poly` because `open`
is reserved in Lean. -/
def Polygon.open_poly (p : Polygon) : Polygon :=
  { p with closed := false }

/-- The polygon path data as claim C4 words it: "M x0 y0 " followed by
"L xi yi " for each subsequent point in order, followed by "Z" exactly when
closed (leaving the trailing space of the last "L" operand when not). -/
def claimedPathData (points : List (ℚ × ℚ)) (closed : Bool) : String :=
  match points with
  | [] => ""
  | q :: rest =>
      "M " ++ fmtF32 q.1 ++ " " ++ fmtF32 q.2 ++ " " ++
        String.join (rest.map fun r => "L " ++ fmtF32 r.1 ++ " " ++ fmtF32 r.2 ++ " ") ++
        (if closed then "Z" else "")

theorem strFoldl_append (l : List String) (a : String) :
    a ++ List.foldl (fun r s => r ++ s) "" l = List.foldl (fun r s => r ++ s) a l := by
  induction l generalizing a with
  | nil => simp [List.foldl]
  | cons x xs ih =>
    simp only [List.foldl]
    rw [← ih ("" ++ x), ← ih (a ++ x)]
    simp [String.append_assoc]

theorem polyOps_eq_join (l : List (ℚ × ℚ)) :
    polyOps l = String.join (l.map fun r => "L " ++ fmtF32 r.1 ++ " " ++ fmtF32 r.2 ++ " ") := by
  induction l with
  | nil => rfl
  | cons q rest ih =>
    simp only [polyOps, String.join, List.map, List.foldl, ih]
    rw [strFoldl_append]
    simp

/-- C4: for every non-empty Polygon, what is emitted between `d=` and the
closing `"` of the `d` attribute is "M x0 y0 " followed by "L xi yi " for each
subsequent point in order, followed by "Z" iff `closed` (trailing space kept
when not closed); in particular points (0,0),(1,0),(1,1) closed yield path
data `M 0 0 L 1 0 L 1 1 Z`, and after `.open()` they yield
`M 0 0 L 1 0 L 1 1 `. -/
theorem polygon_c4_path_data :
    (∀ (q : ℚ × ℚ) (rest : List (ℚ × ℚ)) (c : Bool) (st : Style),
        (Polygon.mk (q :: rest) c st).display =
          "<path d=" ++ claimedPathData (q :: rest) c ++ "\" style=\"" ++ st.display ++ "\"/>") ∧
    (polygon [(0, 0), (1, 0), (1, 1)]).display =
      "<path d=" ++ "M 0 0 L 1 0 L 1 1 Z" ++
        "\" style=\"fill:rgb(0,0,0);stroke:none;fill-opacity:1;stroke-opacity:1;\"/>" ∧
    ((polygon [(0, 0), (1, 0), (1, 1)]).open_poly).display =
      "<path d=" ++ "M 0 0 L 1 0 L 1 1 " ++
        "\" style=\"fill:rgb(0,0,0);stroke:none;fill-opacity:1;stroke-opacity:1;\"/>" := by
  refine ⟨fun q rest c st => ?_, by decide, by decide⟩
  simp only [Polygon.display, claimedPathData, polyOps_eq_join]

/-- C5: the claim says an empty Polygon renders `<path d="" style="S"/>` with
a properly quoted empty `d` attribute.  The code's first write is the raw
string `<path d=` WITHOUT an opening quote (its sibling `Path` impl and the
doc comment `<path d="..." style="..."/>` both have it), so an empty polygon
actually renders `<path d=" style="S"/>` - a single quote after `d=`,
not the claimed pair. -/
theorem polygon_c5_empty_render :
    (polygon []).display =
      "<path d=\" style=\"fill:rgb(0,0,0);stroke:none;fill-opacity:1;stroke-opacity:1;\"/>" ∧
    (polygon []).display ≠
      "<path d=\"\" style=\"fill:rgb(0,0,0);stroke:none;fill-opacity:1;stroke-opacity:1;\"/>" := by
  constructor
  · decide
  · decide

/-- `enum PathOp` (svg.rs lines 460-466). -/
inductive PathOp where
  | moveTo (x y : ℚ)
  | lineTo (x y : ℚ)
  | quadraticTo (ctrl_x ctrl_y x y : ℚ)
  | cubicTo (ctrl1_x ctrl1_y ctrl2_x ctrl2_y x y : ℚ)
  | close

/-- `impl fmt::Display for PathOp` (svg.rs lines 467-477): letter code and
operands separated by single spaces, with a trailing space after each op. -/
def PathOp.display : PathOp → String
  | PathOp.moveTo x y => "M " ++ fmtF32 x ++ " " ++ fmtF32 y ++ " "
  | PathOp.lineTo x y => "L " ++ fmtF32 x ++ " " ++ fmtF32 y ++ " "
  | PathOp.quadraticTo cx cy x y =>
      "Q " ++ fmtF32 cx ++ " " ++ fmtF32 cy ++ " " ++ fmtF32 x ++ " " ++ fmtF32 y ++ " "
  | PathOp.cubicTo c1x c1y c2x c2y x y =>
      "C " ++ fmtF32 c1x ++ " " ++ fmtF32 c1y ++ " " ++ fmtF32 c2x ++ " " ++ fmtF32 c2y
        ++ " " ++ fmtF32 x ++ " " ++ fmtF32 y ++ " "
  | PathOp.close => "Z "

/-- `struct Path` (svg.rs lines 453-456). -/
structure Path where
  ops : List PathOp
  style : Style

/-- The `for op in &self.ops { op.fmt(f)?; }` loop of Path's Display
(svg.rs lines 482-484). -/
def opsLoop : List PathOp → String
  | [] => ""
  | op :: rest => op.display ++ opsLoop rest

/-- `impl fmt::Display for Path` (svg.rs lines 479-487):
`<path d="` then the ops, then `" style="{style}" />`. -/
def Path.display (p : Path) : String :=
  "<path d=\"" ++ opsLoop p.ops ++ "\" style=\"" ++ p.style.display ++ "\" />"

/-- `path()` constructor (svg.rs lines 552-557). -/
def path : Path :=
  { ops := [], style := Style.default }

/-- `Path::move_to` (svg.rs lines 490-493): pushes a MoveTo op. -/
def Path.move_to (p : Path) (x y : ℚ) : Path :=
  { p with ops := p.ops ++ [PathOp.moveTo x y] }

/-- `Path::line_to` (svg.rs lines 495-498). -/
def Path.line_to (p : Path) (x y : ℚ) : Path :=
  { p with ops := p.ops ++ [PathOp.lineTo x y] }

/-- `Path::quadratic_bezier_to` (svg.rs lines 500-507). -/
def Path.quadratic_bezier_to (p : Path) (cx cy x y : ℚ) : Path :=
  { p with ops := p.ops ++ [PathOp.quadraticTo cx cy x y] }

/-- `Path::cubic_bezier_to` (svg.rs lines 509-517). -/
def Path.cubic_bezier_to (p : Path) (c1x c1y c2x c2y x y : ℚ) : Path :=
  { p with ops := p.ops ++ [PathOp.cubicTo c1x c1y c2x c2y x y] }

/-- `Path::close` (svg.rs lines 519-522): pushes a Close op. -/
def Path.close (p : Path) : Path :=
  { p with ops := p.ops ++ [PathOp.close] }

theorem opsLoop_eq_join (l : List PathOp) :
    opsLoop l = String.join (l.map PathOp.display) := by
  induction l with
  | nil => rfl
  | cons op rest ih =>
    simp only [opsLoop, String.join, List.map, List.foldl, ih]
    rw [strFoldl_append]
    simp

/-- C6: every Path renders its ops in append order, each op as its letter code
and space-separated operands with a trailing space (M/L/Q/C/Z as listed), and
the Path built by `path().move_to(0,0).line_to(1,1).close()` renders the `d`
attribute value `M 0 0 L 1 1 Z ` (trailing space included). -/
theorem path_c6_render :
    (∀ p : Path,
        p.display =
          "<path d=\"" ++ String.join (p.ops.map PathOp.display) ++ "\" style=\""
            ++ p.style.display ++ "\" />") ∧
    (∀ x y : ℚ, (PathOp.moveTo x y).display = "M " ++ fmtF32 x ++ " " ++ fmtF32 y ++ " ") ∧
    (∀ x y : ℚ, (PathOp.lineTo x y).display = "L " ++ fmtF32 x ++ " " ++ fmtF32 y ++ " ") ∧
    (∀ cx cy x y : ℚ, (PathOp.quadraticTo cx cy x y).display =
        "Q " ++ fmtF32 cx ++ " " ++ fmtF32 cy ++ " " ++ fmtF32 x ++ " " ++ fmtF32 y ++ " ") ∧
    (∀ c1x c1y c2x c2y x y : ℚ, (PathOp.cubicTo c1x c1y c2x c2y x y).display =
        "C " ++ fmtF32 c1x ++ " " ++ fmtF32 c1y ++ " " ++ fmtF32 c2x ++ " " ++ fmtF32 c2y
          ++ " " ++ fmtF32 x ++ " " ++ fmtF32 y ++ " ") ∧
    PathOp.close.display = "Z " ∧
    (((path.move_to 0 0).line_to 1 1).close).display =
      "<path d=\"" ++ "M 0 0 L 1 1 Z " ++
        "\" style=\"fill:rgb(0,0,0);stroke:none;fill-opacity:1;stroke-opacity:1;\" />" := by
  refine ⟨fun p => ?_, fun x y => rfl, fun x y => rfl, fun cx cy x y => rfl,
    fun c1x c1y c2x c2y x y => rfl, rfl, by decide⟩
  simp only [Path.display, opsLoop_eq_join]

/-- `struct Circle` (svg.rs lines 235-240). -/
structure Circle where
  x : ℚ
  y : ℚ
  radius : ℚ
  style : Style

/-- `impl fmt::Display for Circle` (svg.rs lines 282-290).  The raw string
template `r#"<circle cx="{}" cy="{}" r="{}" style="{}" />""#` ends in `/>"`:
the emitted fragment carries a stray trailing double quote. -/
def Circle.display (c : Circle) : String :=
  "<circle cx=\"" ++ fmtF32 c.x ++ "\" cy=\"" ++ fmtF32 c.y ++ "\" r=\"" ++ fmtF32 c.radius
    ++ "\" style=\"" ++ c.style.display ++ "\" />\""

/-- C10: every Circle renders exactly as
`<circle cx="X" cy="Y" r="R" style="S" />"` - with a stray double quote after
`/>`: the output is some string followed by the literal three characters
`/>"`. -/
theorem circle_c10_stray_quote (c : Circle) :
    c.display =
      "<circle cx=\"" ++ fmtF32 c.x ++ "\" cy=\"" ++ fmtF32 c.y ++ "\" r=\""
        ++ fmtF32 c.radius ++ "\" style=\"" ++ c.style.display ++ "\" />\"" ∧
    ∃ t : String, c.display = t ++ "/>\"" := by
  refine ⟨rfl, ⟨"<circle cx=\"" ++ fmtF32 c.x ++ "\" cy=\"" ++ fmtF32 c.y ++ "\" r=\""
    ++ fmtF32 c.radius ++ "\" style=\"" ++ c.style.display ++ "\" ", ?_⟩⟩
  simp only [Circle.display, String.append_assoc]
  rfl

/-- `struct Indentation` (svg.rs lines 691-693) with its `u32` counter. -/
structure Indentation where
  n : ℕ

/-- `indent(n)` constructor (svg.rs lines 695-697). -/
def indent (n : ℕ) : Indentation := ⟨n⟩

/-- `Indentation::push` (svg.rs lines 700-702). -/
def Indentation.push (i : Indentation) : Indentation := ⟨i.n + 1⟩

/-- `Indentation::pop` (svg.rs lines 704-706) is the unguarded `self.n -= 1`
on the unsigned `u32` counter: at `n = 0` the decrement underflows (a panic in
debug builds, silent wraparound in release), so the operation is not total
there; the underflow case is embedded as `none`, and for positive `n` the
counter is simply decremented. -/
def Indentation.pop (i : Indentation) : Option Indentation :=
  if i.n = 0 then none else some ⟨i.n - 1⟩

/-- C9: `pop` on a zero count hits the unguarded unsigned decrement and is not
total (no saturation at zero, no in-band recovery - the embedding's `none`
marks the underflow); for every positive count it simply decrements by one. -/
theorem indentation_pop_c9 :
    (indent 0).pop = none ∧ ∀ n : ℕ, (indent (n + 1)).pop = some (indent n) := by
  refine ⟨rfl, fun n => ?_⟩
  simp [Indentation.pop, indent]

end SvgFmt
